import Mathlib

/-!
Verification of the signal-detection pipeline of `tw_stockbot_push.py`:
moving-average computation (`fetch_ma`), event classification (the
`===== 事件判定 =====` block of `main`), per-ticker report assembly and
alert deduplication.  Python floats are modelled as `Option ℚ` after
`to_float` (which maps `None`, sentinel strings and non-finite values to
absence); the daily close series is a list of valid (finite) closes.
-/

namespace StockBot

/-- TOUCH_TOL = 0.005 (±0.5% counts as "near" an average). -/
def TOUCH_TOL : ℚ := 5 / 1000

/-- A Python value as it reaches `to_float`: `None`, a sentinel or
unparsable string ("", "-", "NaN", ...), a string that parses to a finite
float, a finite float, or a non-finite float (nan/inf). -/
inductive PyVal where
  | none
  | sentinelStr
  | numStr (q : ℚ)
  | num (q : ℚ)
  | nonfinite

/-- `to_float`: `None`, sentinel strings and non-finite values become
`None`; finite numbers (and numeric strings) become the number. -/
def to_float : PyVal → Option ℚ
  | PyVal.none => Option.none
  | PyVal.sentinelStr => Option.none
  | PyVal.numStr q => some q
  | PyVal.num q => some q
  | PyVal.nonfinite => Option.none

/-- `f"{x:.2f}"` applied to a present value, `"—"` otherwise (`fmt2`). -/
def fmt2 : Option ℚ → String
  | some v =>
    let n : Int := round (v * 100)
    let sign := if n < 0 then "-" else ""
    let m := n.natAbs
    sign ++ toString (m / 100) ++ "." ++
      (if m % 100 < 10 then "0" else "") ++ toString (m % 100)
  | Option.none => "—"

/-- `f"{x:+.2f}"`: like `fmt2` but with an explicit sign. -/
def fmtSigned2 (v : ℚ) : String :=
  let n : Int := round (v * 100)
  let sign := if n < 0 then "-" else "+"
  let m := n.natAbs
  sign ++ toString (m / 100) ++ "." ++
    (if m % 100 < 10 then "0" else "") ++ toString (m % 100)

/-- One entry of the TWSE `msgArray`: display name `n`, last trade price
`z`, previous close `y`. -/
structure Quote where
  n : Option String
  z : PyVal
  y : PyVal

/-- The external data available for one ticker in one run: its TWSE quote
entry (absent when the code is missing from `msgArray`), the result of
`fallback_price_from_yf_1m` (already `to_float`-ed, `none` on failure or
empty frame), and the daily close series seen by `fetch_ma` (valid finite
closes, chronological). -/
structure TickerData where
  quote : Option Quote
  fallback1m : Option ℚ
  history : List ℚ

/-- `q.get("z")` where `q = quotes.get(code, {})`. -/
def zField : Option Quote → PyVal
  | some q => q.z
  | Option.none => PyVal.none

/-- `q.get("y")` where `q = quotes.get(code, {})`. -/
def yField : Option Quote → PyVal
  | some q => q.y
  | Option.none => PyVal.none

/-- `name = q.get("n") or code` (empty string is falsy in Python). -/
def nameOf (q : Option Quote) (code : String) : String :=
  match q with
  | some qq =>
    match qq.n with
    | some s => if s = "" then code else s
    | Option.none => code
  | Option.none => code

/-- `close.rolling(n).mean()`: entry `i` is the mean of the `n` closes
ending at index `i`, `NaN` (here `none`) while fewer than `n` closes are
available. -/
def rollingMean (n : Nat) (xs : List ℚ) : List (Option ℚ) :=
  (List.range xs.length).map (fun i =>
    if n ≤ i + 1 then
      some (((xs.take (i + 1)).drop (i + 1 - n)).sum / (n : ℚ))
    else Option.none)

/-- The tuple returned by `fetch_ma`:
`y_close, ma10, ma20, (prev_close, prev_ma20)`. -/
structure MAResult where
  y_close : Option ℚ
  ma10 : Option ℚ
  ma20 : Option ℚ
  prev_close : Option ℚ
  prev_ma20 : Option ℚ

/-- `fetch_ma`: rolling MA10/MA20 over the close series, reading the last
row for the current values and (when the series has ≥2 rows) the
second-to-last row for `prev_close` / `prev_ma20`.  An empty frame yields
all-`None`. -/
def fetch_ma (close : List ℚ) : MAResult :=
  if close.length = 0 then ⟨Option.none, Option.none, Option.none, Option.none, Option.none⟩
  else
    { y_close := close[close.length - 1]?
      ma10 := ((rollingMean 10 close)[close.length - 1]?).join
      ma20 := ((rollingMean 20 close)[close.length - 1]?).join
      prev_close := if 2 ≤ close.length then close[close.length - 2]? else Option.none
      prev_ma20 := if 2 ≤ close.length then
          ((rollingMean 20 close)[close.length - 2]?).join else Option.none }

/-- The prior MA10 value: row `-2` of the `MA10` rolling column that
`fetch_ma` computes.  The source builds this column but never reads this
entry (no MA10 cross detection exists downstream). -/
def ma10_prior (close : List ℚ) : Option ℚ :=
  if 2 ≤ close.length then ((rollingMean 10 close)[close.length - 2]?).join
  else Option.none

/-- The spec's arithmetic mean of a list of closes. -/
def mean (xs : List ℚ) : ℚ := xs.sum / (xs.length : ℚ)

/-- The spec's "last N closes" window. -/
def lastN (n : Nat) (xs : List ℚ) : List ℚ := xs.drop (xs.length - n)

/-- The spec's "N closes ending at the second-to-last close"
(`series[-(N+1):-1]`). -/
def priorWindow (n : Nat) (xs : List ℚ) : List ℚ := lastN n (xs.take (xs.length - 1))

/-- The touch test `abs(price - ma) / ma <= tol` with a general tolerance. -/
def touchCondTol (price ma tol : ℚ) : Bool := decide (|price - ma| / ma ≤ tol)

/-- The touch test as written in `main` (tolerance `TOUCH_TOL`). -/
def touchCond (price ma : ℚ) : Bool := touchCondTol price ma TOUCH_TOL

/-- `a is not None and b is not None and a < b` — the shape of the
cross-condition conjuncts in `main`. -/
def obLT (a b : Option ℚ) : Bool :=
  match a, b with
  | some x, some y => decide (x < y)
  | _, _ => false

/-- The `===== 事件判定 =====` if/elif chain of `main`, entered once
`price`, `ma10` and `ma20` are known present.  Note the order: the MA20
touch test comes FIRST, before the cross tests. -/
def classify (price ma10 ma20 : ℚ) (prev_close prev_ma20 : Option ℚ) : Option String :=
  if touchCond price ma20 then some "touch20"
  else if obLT prev_close prev_ma20 && decide (ma20 < price) then some "crossup20"
  else if obLT prev_ma20 prev_close && decide (price < ma20) then some "crossdown20"
  else if touchCond price ma10 then some "touch10"
  else Option.none

/-- Price resolution in `main`: TWSE `z` first; when absent, the 1-minute
yfinance fallback, with the matching source tag. -/
def resolvePrice (d : TickerData) : Option (ℚ × String) :=
  match to_float (zField d.quote) with
  | some p => some (p, "TWSE 即時")
  | Option.none =>
    match d.fallback1m with
    | some p => some (p, "Yahoo延遲")
    | Option.none => Option.none

/-- `chg_pct = ((price - yclose) / yclose) * 100` when `yclose` is present. -/
def chg_pct_of (price : ℚ) (yclose : Option ℚ) : Option ℚ :=
  match yclose with
  | some y => some ((price - y) / y * 100)
  | Option.none => Option.none

/-- The `chg_txt` string (colour dot plus signed percentage, or `"—"`). -/
def chgTxt (price : ℚ) (yclose : Option ℚ) : String :=
  match chg_pct_of price yclose with
  | some cp =>
    (if 0 < cp then "🔴" else if cp < 0 then "🟢" else "➖") ++ " " ++ fmtSigned2 cp ++ "%"
  | Option.none => "—"

/-- The Redis dedup key `f"maalert:{date}:{code}:{event}"`. -/
def alertKey (today code e : String) : String :=
  "maalert:" ++ today ++ ":" ++ code ++ ":" ++ e

/-- The alert text appended for each event kind. -/
def alertText (e name code : String) (price ma10 ma20 : ℚ) (tag : String) : String :=
  if e = "touch20" then
    "⚠️ " ++ name ++ "（" ++ code ++ "）接近 MA20｜今價 " ++ fmt2 (some price) ++
      "（" ++ tag ++ "）｜MA20 " ++ fmt2 (some ma20)
  else if e = "crossup20" then
    "🔼 " ++ name ++ "（" ++ code ++ "）上穿 MA20｜今價 " ++ fmt2 (some price) ++
      "（" ++ tag ++ "）｜MA20 " ++ fmt2 (some ma20)
  else if e = "crossdown20" then
    "🔽 " ++ name ++ "（" ++ code ++ "）下穿 MA20｜今價 " ++ fmt2 (some price) ++
      "（" ++ tag ++ "）｜MA20 " ++ fmt2 (some ma20)
  else
    "⚠️ " ++ name ++ "（" ++ code ++ "）接近 MA10｜今價 " ++ fmt2 (some price) ++
      "（" ++ tag ++ "）｜MA10 " ++ fmt2 (some ma10)

/-- What one iteration of the watchlist loop appends: the summary lines
appended to `lines`, the alert lines appended to `alerts`, and the event
value this iteration derived (for reasoning about alert gating). -/
structure TickerOut where
  linesAppended : List String
  alertsAppended : List String
  event : Option String

/-- One iteration of the `for code in CODES` loop of `main`.  `dedup` is
the external `dedup_check_and_set` oracle: `true` means "first sighting,
emit" (always `true` when Redis is unconfigured or erroring), `false`
means the key was already in the store.  At the status-line step `price`
and `ma20` are always present, so the source's dead `else` branch at the
end of the loop body is not reachable and is not modelled. -/
def processTicker (dedup : String → Bool) (today code : String) (d : TickerData) : TickerOut :=
  match resolvePrice d with
  | Option.none =>
    ⟨["⚠️ " ++ nameOf d.quote code ++ "（" ++ code ++ "）暫無成交價"], [], Option.none⟩
  | some (price, tag) =>
    match (fetch_ma d.history).ma10, (fetch_ma d.history).ma20 with
    | some ma10, some ma20 =>
      let r := fetch_ma d.history
      let ev := classify price ma10 ma20 r.prev_close r.prev_ma20
      let alerts : List String :=
        match ev with
        | some e =>
          if dedup (alertKey today code e) then
            [alertText e (nameOf d.quote code) code price ma10 ma20 tag]
          else []
        | Option.none => []
      let st := if ma20 < price then "🔺高於 MA20"
                else if price < ma20 then "🔻低於 MA20" else "等於 MA20"
      ⟨[code ++ " " ++ nameOf d.quote code ++ "｜今價 " ++ fmt2 (some price) ++ "｜" ++
          chgTxt price (to_float (yField d.quote)) ++ "｜MA10 " ++ fmt2 (some ma10) ++
          "｜MA20 " ++ fmt2 (some ma20) ++ "｜當前價位：" ++ st],
        alerts, ev⟩
    | _, _ =>
      ⟨[code ++ " " ++ nameOf d.quote code ++ "｜今價 " ++ fmt2 (some price) ++ "（" ++ tag ++
          "）｜漲跌 " ++ chgTxt price (to_float (yField d.quote)) ++ "｜MA10/MA20 無法取得"],
        [], Option.none⟩

/-- The watchlist loop of `main`: starting from the header line, each
ticker appends its lines and alerts in order.  Returns `(lines, alerts)`. -/
def runLoop (dedup : String → Bool) (now_str today : String) (codes : List String)
    (data : String → TickerData) : List String × List String :=
  codes.foldl
    (fun acc code =>
      let o := processTicker dedup today code (data code)
      (acc.1 ++ o.linesAppended, acc.2 ++ o.alertsAppended))
    (["📊 台股均線監控（" ++ now_str ++ "）"], [])

/-- The output step of `main`: one summary message joining all lines, plus
one alert message when any alert fired.  No length cap, no chunking. -/
def sendMessages (lines alerts : List String) : List String :=
  [String.intercalate "\n" lines] ++
    (if alerts.isEmpty then [] else ["📣 均線警報\n" ++ String.intercalate "\n" alerts])

/-- The resolved price ignoring the source tag. -/
def priceResolved (d : TickerData) : Option ℚ := (resolvePrice d).map Prod.fst

/-! ### Rolling-mean characterisation -/

lemma rollingMean_get (n i : Nat) (xs : List ℚ) (hi : i < xs.length) :
    (rollingMean n xs)[i]? =
      some (if n ≤ i + 1 then
        some (((xs.take (i + 1)).drop (i + 1 - n)).sum / (n : ℚ)) else Option.none) := by
  unfold rollingMean
  rw [List.getElem?_map, List.getElem?_range hi]
  rfl

lemma rolling_last (n : Nat) (xs : List ℚ) (h1 : 1 ≤ xs.length) :
    ((rollingMean n xs)[xs.length - 1]?).join =
      if n ≤ xs.length then some (mean (lastN n xs)) else Option.none := by
  have hi : xs.length - 1 < xs.length := by omega
  rw [rollingMean_get n _ xs hi]
  have hj : ∀ (o : Option ℚ), (some o).join = o := fun o => rfl
  rw [hj]
  have hsub : xs.length - 1 + 1 = xs.length := by omega
  rw [hsub, List.take_length]
  by_cases h : n ≤ xs.length
  · rw [if_pos h, if_pos h]
    congr 1
    simp only [mean, lastN]
    rw [List.length_drop]
    have hlen : xs.length - (xs.length - n) = n := by omega
    rw [hlen]
  · rw [if_neg h, if_neg h]

lemma rolling_prev (n : Nat) (xs : List ℚ) (h2 : 2 ≤ xs.length) :
    ((rollingMean n xs)[xs.length - 2]?).join =
      if n + 1 ≤ xs.length then some (mean (priorWindow n xs)) else Option.none := by
  have hi : xs.length - 2 < xs.length := by omega
  rw [rollingMean_get n _ xs hi]
  have hj : ∀ (o : Option ℚ), (some o).join = o := fun o => rfl
  rw [hj]
  have hsub : xs.length - 2 + 1 = xs.length - 1 := by omega
  rw [hsub]
  by_cases h : n + 1 ≤ xs.length
  · rw [if_pos (show n ≤ xs.length - 1 by omega), if_pos h]
    congr 1
    have hmin : min (xs.length - 1) xs.length = xs.length - 1 := by omega
    have hl : xs.length - 1 - (xs.length - 1 - n) = n := by omega
    simp only [mean, priorWindow, lastN, List.length_drop, List.length_take]
    rw [hmin, hl]
  · rw [if_neg (show ¬ n ≤ xs.length - 1 by omega), if_neg h]

lemma fetch_ma_ma10 (xs : List ℚ) :
    (fetch_ma xs).ma10 =
      if 10 ≤ xs.length then some (mean (lastN 10 xs)) else Option.none := by
  unfold fetch_ma
  by_cases h0 : xs.length = 0
  · rw [if_pos h0, if_neg (by omega)]
  · rw [if_neg h0]
    exact rolling_last 10 xs (by omega)

lemma fetch_ma_ma20 (xs : List ℚ) :
    (fetch_ma xs).ma20 =
      if 20 ≤ xs.length then some (mean (lastN 20 xs)) else Option.none := by
  unfold fetch_ma
  by_cases h0 : xs.length = 0
  · rw [if_pos h0, if_neg (by omega)]
  · rw [if_neg h0]
    exact rolling_last 20 xs (by omega)

lemma fetch_ma_prev_ma20 (xs : List ℚ) :
    (fetch_ma xs).prev_ma20 =
      if 21 ≤ xs.length then some (mean (priorWindow 20 xs)) else Option.none := by
  unfold fetch_ma
  by_cases h0 : xs.length = 0
  · rw [if_pos h0, if_neg (by omega)]
  · rw [if_neg h0]
    show (if 2 ≤ xs.length then ((rollingMean 20 xs)[xs.length - 2]?).join else Option.none) = _
    by_cases h2 : 2 ≤ xs.length
    · rw [if_pos h2, rolling_prev 20 xs h2]
    · rw [if_neg h2, if_neg (by omega)]

lemma fetch_ma_prior10 (xs : List ℚ) :
    ma10_prior xs =
      if 11 ≤ xs.length then some (mean (priorWindow 10 xs)) else Option.none := by
  unfold ma10_prior
  by_cases h2 : 2 ≤ xs.length
  · rw [if_pos h2, rolling_prev 10 xs h2]
  · rw [if_neg h2, if_neg (by omega)]

lemma processTicker_ma10_none (dedup : String → Bool) (today code : String)
    (d : TickerData) (h : (fetch_ma d.history).ma10 = Option.none) :
    (processTicker dedup today code d).event = Option.none ∧
      (processTicker dedup today code d).alertsAppended = [] := by
  unfold processTicker
  split
  · exact ⟨rfl, rfl⟩
  · split
    · simp_all
    · exact ⟨rfl, rfl⟩

/-- C3: for each period N ∈ {10, 20}, the current average is the
arithmetic mean of the last N closes and the prior average the mean of the
N closes ending at the second-to-last close, each absent (never zero or an
error) below N resp. N+1 qualifying points; a series with fewer than 2
valid closes yields no averages and no events. -/
theorem ma_windows_correct (closes : List ℚ) :
    ((fetch_ma closes).ma10 =
        if 10 ≤ closes.length then some (mean (lastN 10 closes)) else Option.none)
    ∧ ((fetch_ma closes).ma20 =
        if 20 ≤ closes.length then some (mean (lastN 20 closes)) else Option.none)
    ∧ ((fetch_ma closes).prev_ma20 =
        if 21 ≤ closes.length then some (mean (priorWindow 20 closes)) else Option.none)
    ∧ (ma10_prior closes =
        if 11 ≤ closes.length then some (mean (priorWindow 10 closes)) else Option.none)
    ∧ (closes.length < 2 →
        (fetch_ma closes).ma10 = Option.none ∧ (fetch_ma closes).ma20 = Option.none ∧
        (fetch_ma closes).prev_close = Option.none ∧
        (fetch_ma closes).prev_ma20 = Option.none ∧
        ∀ (dedup : String → Bool) (today code : String) (q : Option Quote) (fb : Option ℚ),
          (processTicker dedup today code ⟨q, fb, closes⟩).event = Option.none ∧
          (processTicker dedup today code ⟨q, fb, closes⟩).alertsAppended = []) := by
  refine ⟨fetch_ma_ma10 closes, fetch_ma_ma20 closes, fetch_ma_prev_ma20 closes,
    fetch_ma_prior10 closes, ?_⟩
  intro hlt
  have h10 : (fetch_ma closes).ma10 = Option.none := by
    rw [fetch_ma_ma10, if_neg (by omega)]
  have h20 : (fetch_ma closes).ma20 = Option.none := by
    rw [fetch_ma_ma20, if_neg (by omega)]
  have hpc : (fetch_ma closes).prev_close = Option.none := by
    unfold fetch_ma
    by_cases h0 : closes.length = 0
    · rw [if_pos h0]
    · rw [if_neg h0]
      show (if 2 ≤ closes.length then closes[closes.length - 2]? else Option.none) = _
      rw [if_neg (by omega)]
  have hpm : (fetch_ma closes).prev_ma20 = Option.none := by
    rw [fetch_ma_prev_ma20, if_neg (by omega)]
  exact ⟨h10, h20, hpc, hpm, fun dedup today code q fb =>
    processTicker_ma10_none dedup today code ⟨q, fb, closes⟩ h10⟩

/-- Witness for `ma_windows_correct` at the one-point series `[100]`. -/
theorem ma_windows_correct_witness :
    (fetch_ma [(100 : ℚ)]).ma10 = Option.none ∧ (fetch_ma [(100 : ℚ)]).ma20 = Option.none ∧
      (fetch_ma [(100 : ℚ)]).prev_close = Option.none ∧
      (fetch_ma [(100 : ℚ)]).prev_ma20 = Option.none ∧
      ∀ (dedup : String → Bool) (today code : String) (q : Option Quote) (fb : Option ℚ),
        (processTicker dedup today code ⟨q, fb, [(100 : ℚ)]⟩).event = Option.none ∧
        (processTicker dedup today code ⟨q, fb, [(100 : ℚ)]⟩).alertsAppended = [] :=
  (ma_windows_correct [(100 : ℚ)]).2.2.2.2 (by norm_num)

lemma fetch_ma_prev_close (xs : List ℚ) :
    (fetch_ma xs).prev_close =
      if 2 ≤ xs.length then xs[xs.length - 2]? else Option.none := by
  unfold fetch_ma
  by_cases h0 : xs.length = 0
  · rw [if_pos h0, if_neg (by omega)]
  · rw [if_neg h0]

/-! ### Event classification -/

/-- A 21-close series: 19 days at 100, a dip to 90, back to 100.  With a
price of 99.9 the cross-up-MA20 conditions hold AND the price is within
0.5% of MA20 = 99.5. -/
def closesC1 : List ℚ := List.replicate 19 100 ++ [90, 100]

/-- C1 counterexample: on `closesC1` (21 valid closes) with price 99.9,
`prev_close = 90 < 99.5 = prior MA20` and `price > 99.5 = current MA20`,
so the claim requires CrossUpMA20 — but the classifier emits `touch20`:
the touch test is the FIRST branch of the if/elif chain, so touch
preempts cross, not the other way around. -/
theorem touch_preempts_crossup_cex :
    21 ≤ closesC1.length
    ∧ (fetch_ma closesC1).ma10 = some 99
    ∧ (fetch_ma closesC1).ma20 = some (199/2)
    ∧ (fetch_ma closesC1).prev_close = some 90
    ∧ (fetch_ma closesC1).prev_ma20 = some (199/2)
    ∧ ((90 : ℚ) < 199/2)
    ∧ ((199/2 : ℚ) < 999/10)
    ∧ classify (999/10) 99 (199/2) (some 90) (some (199/2)) = some "touch20"
    ∧ classify (999/10) 99 (199/2) (some 90) (some (199/2)) ≠ some "crossup20" := by
  have hcl : classify (999/10) 99 (199/2) (some 90) (some (199/2)) = some "touch20" := by
    have t20 : touchCond (999/10 : ℚ) (199/2) = true := by
      unfold touchCond touchCondTol
      rw [abs_of_nonneg (show (0:ℚ) ≤ 999/10 - 199/2 by norm_num)]
      norm_num [TOUCH_TOL]
    unfold classify
    rw [t20]
    simp
  refine ⟨by norm_num [closesC1], ?_, ?_, ?_, ?_, by norm_num, by norm_num, hcl, ?_⟩
  · rw [fetch_ma_ma10]
    norm_num [closesC1, mean, lastN, List.replicate]
  · rw [fetch_ma_ma20]
    norm_num [closesC1, mean, lastN, List.replicate]
  · rw [fetch_ma_prev_close]
    norm_num [closesC1, List.replicate]
  · rw [fetch_ma_prev_ma20]
    norm_num [closesC1, mean, priorWindow, lastN, List.replicate]
  · rw [hcl]
    simp

/-- C1 (amended): on a series of ≥21 valid closes with
`prev_close < prior MA20` and `current MA20 < price`, the classifier
emits CrossUpMA20 PROVIDED the MA20 touch condition does not also hold
(touch takes precedence over cross); at most one event fires, so neither
CrossDownMA20 nor TouchMA20 fires simultaneously. -/
theorem crossup20_fires_when_no_touch (closes : List ℚ) (price m10 m20 pc pm : ℚ)
    (h21 : 21 ≤ closes.length)
    (hm10 : (fetch_ma closes).ma10 = some m10)
    (hm20 : (fetch_ma closes).ma20 = some m20)
    (hpc : (fetch_ma closes).prev_close = some pc)
    (hpm : (fetch_ma closes).prev_ma20 = some pm)
    (hlt : pc < pm) (hgt : m20 < price)
    (hnt : touchCond price m20 = false) :
    classify price m10 m20 (fetch_ma closes).prev_close (fetch_ma closes).prev_ma20 =
        some "crossup20"
    ∧ classify price m10 m20 (fetch_ma closes).prev_close (fetch_ma closes).prev_ma20 ≠
        some "crossdown20"
    ∧ classify price m10 m20 (fetch_ma closes).prev_close (fetch_ma closes).prev_ma20 ≠
        some "touch20" := by
  have hc : classify price m10 m20 (fetch_ma closes).prev_close
      (fetch_ma closes).prev_ma20 = some "crossup20" := by
    rw [hpc, hpm]
    unfold classify
    rw [if_neg (by simp [hnt]), if_pos (by simp [obLT, hlt, hgt])]
  refine ⟨hc, ?_, ?_⟩ <;> rw [hc] <;> simp

/-- A 21-close series realising the amended C1: 19 days at 100, dip to
90, close at 105; price 105 is an up-cross of MA20 = 99.75 and not a
touch. -/
def closesUp : List ℚ := List.replicate 19 100 ++ [90, 105]

/-- Witness for `crossup20_fires_when_no_touch` on `closesUp` at price 105. -/
theorem crossup20_fires_when_no_touch_witness :
    classify 105 (199/2) (399/4) (fetch_ma closesUp).prev_close
        (fetch_ma closesUp).prev_ma20 = some "crossup20"
    ∧ classify 105 (199/2) (399/4) (fetch_ma closesUp).prev_close
        (fetch_ma closesUp).prev_ma20 ≠ some "crossdown20"
    ∧ classify 105 (199/2) (399/4) (fetch_ma closesUp).prev_close
        (fetch_ma closesUp).prev_ma20 ≠ some "touch20" :=
  crossup20_fires_when_no_touch closesUp 105 (199/2) (399/4) 90 (199/2)
    (by norm_num [closesUp])
    (by rw [fetch_ma_ma10]; norm_num [closesUp, mean, lastN, List.replicate])
    (by rw [fetch_ma_ma20]; norm_num [closesUp, mean, lastN, List.replicate])
    (by rw [fetch_ma_prev_close]; norm_num [closesUp, List.replicate])
    (by rw [fetch_ma_prev_ma20]; norm_num [closesUp, mean, priorWindow, lastN, List.replicate])
    (by norm_num) (by norm_num)
    (by unfold touchCond touchCondTol
        rw [abs_of_nonneg (show (0:ℚ) ≤ 105 - 399/4 by norm_num)]
        norm_num [TOUCH_TOL])

/-- A 21-close series realising an MA10 up-cross: low older closes, a dip
at day −2, price above MA10 — while no MA20 event and no touch fires. -/
def closesC2 : List ℚ := List.replicate 11 50 ++ List.replicate 8 100 ++ [90, 110]

/-- C2 counterexample: on `closesC2` with price 110 every quantity is
present and finite, `prev_close = 90 < 94 = prior MA10` and
`price = 110 > 100 = current MA10`, yet the classifier emits NO event at
all — the code has no CrossUpMA10/CrossDownMA10 rules (it never even
reads the prior MA10 out of the rolling column). -/
theorem no_ma10_cross_event_cex :
    (fetch_ma closesC2).ma10 = some 100
    ∧ (fetch_ma closesC2).ma20 = some 75
    ∧ (fetch_ma closesC2).prev_close = some 90
    ∧ (fetch_ma closesC2).prev_ma20 = some 72
    ∧ ma10_prior closesC2 = some 94
    ∧ ((90 : ℚ) < 94)
    ∧ ((100 : ℚ) < 110)
    ∧ classify 110 100 75 (some 90) (some 72) = Option.none := by
  refine ⟨?_, ?_, ?_, ?_, ?_, by norm_num, by norm_num, ?_⟩
  · rw [fetch_ma_ma10]
    norm_num [closesC2, mean, lastN, List.replicate]
  · rw [fetch_ma_ma20]
    norm_num [closesC2, mean, lastN, List.replicate]
  · rw [fetch_ma_prev_close]
    norm_num [closesC2, List.replicate]
  · rw [fetch_ma_prev_ma20]
    norm_num [closesC2, mean, priorWindow, lastN, List.replicate]
  · rw [fetch_ma_prior10]
    norm_num [closesC2, mean, priorWindow, lastN, List.replicate]
  · have t20 : touchCond (110 : ℚ) 75 = false := by
      unfold touchCond touchCondTol
      rw [abs_of_nonneg (show (0:ℚ) ≤ 110 - 75 by norm_num)]
      norm_num [TOUCH_TOL]
    have t10 : touchCond (110 : ℚ) 100 = false := by
      unfold touchCond touchCondTol
      rw [abs_of_nonneg (show (0:ℚ) ≤ 110 - 100 by norm_num)]
      norm_num [TOUCH_TOL]
    have o1 : obLT (some (90 : ℚ)) (some 72) = false := by norm_num [obLT]
    have o2 : obLT (some (72 : ℚ)) (some 90) = true := by norm_num [obLT]
    have d1 : decide ((110 : ℚ) < 75) = false := by norm_num
    unfold classify
    rw [t20, t10, o1, o2, d1]
    simp

/-- C2 (amended): the classifier has no MA10 cross events — its only
possible outputs are `touch20`, `crossup20`, `crossdown20`, `touch10` or
nothing, so under the claimed MA10-cross conditions no MA10 cross event
can ever be emitted. -/
theorem classify_range (price ma10 ma20 : ℚ) (pc pm : Option ℚ) :
    classify price ma10 ma20 pc pm = Option.none
    ∨ classify price ma10 ma20 pc pm = some "touch20"
    ∨ classify price ma10 ma20 pc pm = some "crossup20"
    ∨ classify price ma10 ma20 pc pm = some "crossdown20"
    ∨ classify price ma10 ma20 pc pm = some "touch10" := by
  unfold classify
  split_ifs <;> simp

/-- C4: a price of exactly `ma20 * (1 + tol)` satisfies the touch test
(the comparison is an inclusive ≤ on relative distance) and makes the
classifier emit TouchMA20 at the code's tolerance, while
`ma20 * (1 + tol) + ε` fails the test for every ε > 0. -/
theorem touch_tolerance_boundary (m a tol eps : ℚ) (pc pm : Option ℚ)
    (hm : 0 < m) (htol : 0 ≤ tol) (heps : 0 < eps) :
    classify (m * (1 + TOUCH_TOL)) a m pc pm = some "touch20"
    ∧ touchCondTol (m * (1 + tol)) m tol = true
    ∧ touchCondTol (m * (1 + tol) + eps) m tol = false := by
  have key : ∀ t : ℚ, 0 ≤ t → |m * (1 + t) - m| / m = t := by
    intro t ht
    have h1 : m * (1 + t) - m = m * t := by ring
    rw [h1, abs_mul, abs_of_pos hm, abs_of_nonneg ht, mul_comm, mul_div_assoc,
      div_self hm.ne', mul_one]
  have hTT : (0 : ℚ) ≤ TOUCH_TOL := by norm_num [TOUCH_TOL]
  refine ⟨?_, ?_, ?_⟩
  · have ht : touchCond (m * (1 + TOUCH_TOL)) m = true := by
      unfold touchCond touchCondTol
      rw [key TOUCH_TOL hTT]
      simp
    unfold classify
    rw [if_pos ht]
  · unfold touchCondTol
    rw [key tol htol]
    simp
  · unfold touchCondTol
    have h2 : |m * (1 + tol) + eps - m| / m = tol + eps / m := by
      have h3 : m * (1 + tol) + eps - m = m * tol + eps := by ring
      rw [h3, abs_of_pos (by positivity), add_div, mul_comm, mul_div_assoc,
        div_self hm.ne', mul_one]
    rw [h2]
    have h4 : ¬ (tol + eps / m ≤ tol) := by
      have h5 : 0 < eps / m := div_pos heps hm
      linarith
    simp [h4]

/-- Witness for `touch_tolerance_boundary` at MA20 = 100, tol = 1%, ε = 1. -/
theorem touch_tolerance_boundary_witness :
    classify ((100 : ℚ) * (1 + TOUCH_TOL)) 100 100 Option.none Option.none = some "touch20"
    ∧ touchCondTol ((100 : ℚ) * (1 + 1/100)) 100 (1/100) = true
    ∧ touchCondTol ((100 : ℚ) * (1 + 1/100) + 1) 100 (1/100) = false :=
  touch_tolerance_boundary 100 100 (1/100) 1 Option.none Option.none
    (by norm_num) (by norm_num) (by norm_num)

/-! ### Presence of inputs, alert gating, division guards -/

lemma obLT_isSome (a b : Option ℚ) (h : obLT a b = true) : a.isSome ∧ b.isSome := by
  cases a <;> cases b <;> simp_all [obLT]

lemma classify_spec (price m10 m20 : ℚ) (pc pm : Option ℚ) (e : String)
    (h : classify price m10 m20 pc pm = some e) :
    (e = "touch20" ∨ e = "crossup20" ∨ e = "crossdown20" ∨ e = "touch10")
    ∧ ((e = "crossup20" ∨ e = "crossdown20") → pc.isSome ∧ pm.isSome) := by
  unfold classify at h
  split_ifs at h with h1 h2 h3 h4
  · injection h with h
    subst h
    simp
  · injection h with h
    subst h
    have h2' := h2
    rw [Bool.and_eq_true] at h2'
    have hh := obLT_isSome pc pm h2'.1
    simp [hh.1, hh.2]
  · injection h with h
    subst h
    have h3' := h3
    rw [Bool.and_eq_true] at h3'
    have hh := obLT_isSome pm pc h3'.1
    simp [hh.1, hh.2]
  · injection h with h
    subst h
    simp

/-- Reduction of `processTicker` in the fully-resolved branch. -/
lemma processTicker_eq (dedup : String → Bool) (today code : String) (d : TickerData)
    (p : ℚ) (tag : String) (m10 m20 : ℚ)
    (hp : resolvePrice d = some (p, tag))
    (h10 : (fetch_ma d.history).ma10 = some m10)
    (h20 : (fetch_ma d.history).ma20 = some m20) :
    (processTicker dedup today code d).event =
      classify p m10 m20 (fetch_ma d.history).prev_close (fetch_ma d.history).prev_ma20
    ∧ (processTicker dedup today code d).alertsAppended =
      (match classify p m10 m20 (fetch_ma d.history).prev_close
          (fetch_ma d.history).prev_ma20 with
        | some e => if dedup (alertKey today code e) then
            [alertText e (nameOf d.quote code) code p m10 m20 tag] else []
        | Option.none => []) := by
  unfold processTicker
  rw [hp, h10, h20]
  exact ⟨rfl, rfl⟩

/-- C9: an event is derived only when every input it depends on is
present (and, through the `to_float` model, finite): the resolved price
and both averages must be present for any event, the previous close and
prior MA20 additionally for the cross events; and the event is always one
of the four real events, never a default value. -/
theorem event_requires_present_inputs (dedup : String → Bool) (today code : String)
    (d : TickerData) (e : String)
    (he : (processTicker dedup today code d).event = some e) :
    (resolvePrice d).isSome
    ∧ (fetch_ma d.history).ma10.isSome
    ∧ (fetch_ma d.history).ma20.isSome
    ∧ ((e = "crossup20" ∨ e = "crossdown20") →
        (fetch_ma d.history).prev_close.isSome ∧ (fetch_ma d.history).prev_ma20.isSome)
    ∧ (e = "touch20" ∨ e = "crossup20" ∨ e = "crossdown20" ∨ e = "touch10") := by
  rcases hp : resolvePrice d with _ | pt
  · rw [show (processTicker dedup today code d).event = Option.none by
      unfold processTicker; rw [hp]] at he
    simp at he
  · obtain ⟨p, tag⟩ := pt
    rcases h10 : (fetch_ma d.history).ma10 with _ | m10
    · rw [show (processTicker dedup today code d).event = Option.none by
        unfold processTicker; rw [hp, h10]] at he
      simp at he
    · rcases h20 : (fetch_ma d.history).ma20 with _ | m20
      · rw [show (processTicker dedup today code d).event = Option.none by
          unfold processTicker; rw [hp, h10, h20]] at he
        simp at he
      · rw [(processTicker_eq dedup today code d p tag m10 m20 hp h10 h20).1] at he
        have hc := classify_spec p m10 m20 (fetch_ma d.history).prev_close
          (fetch_ma d.history).prev_ma20 e he
        exact ⟨rfl, rfl, rfl, hc.2, hc.1⟩

/-- The concrete ticker data used in witnesses: quote present at price
100, previous close 100, and a 20-day flat history at 100 (so MA10 = MA20
= 100 and the price touches MA20). -/
def dataFlat : TickerData :=
  ⟨some ⟨some "台積電", PyVal.num 100, PyVal.num 100⟩, Option.none,
    List.replicate 20 100⟩

lemma dataFlat_price : resolvePrice dataFlat = some (100, "TWSE 即時") := rfl

lemma dataFlat_ma10 : (fetch_ma dataFlat.history).ma10 = some 100 := by
  rw [show dataFlat.history = List.replicate 20 100 from rfl, fetch_ma_ma10]
  norm_num [mean, lastN, List.replicate]

lemma dataFlat_ma20 : (fetch_ma dataFlat.history).ma20 = some 100 := by
  rw [show dataFlat.history = List.replicate 20 100 from rfl, fetch_ma_ma20]
  norm_num [mean, lastN, List.replicate]

lemma dataFlat_prev_close : (fetch_ma dataFlat.history).prev_close = some 100 := by
  rw [show dataFlat.history = List.replicate 20 100 from rfl, fetch_ma_prev_close]
  norm_num [List.replicate]

lemma dataFlat_prev_ma20 : (fetch_ma dataFlat.history).prev_ma20 = Option.none := by
  rw [show dataFlat.history = List.replicate 20 100 from rfl, fetch_ma_prev_ma20]
  norm_num

lemma dataFlat_event (dedup : String → Bool) (today code : String) :
    (processTicker dedup today code dataFlat).event = some "touch20" := by
  rw [(processTicker_eq dedup today code dataFlat 100 "TWSE 即時" 100 100
    dataFlat_price dataFlat_ma10 dataFlat_ma20).1]
  rw [dataFlat_prev_close, dataFlat_prev_ma20]
  have t20 : touchCond (100 : ℚ) 100 = true := by
    unfold touchCond touchCondTol
    rw [abs_of_nonneg (show (0:ℚ) ≤ 100 - 100 by norm_num)]
    norm_num [TOUCH_TOL]
  unfold classify
  rw [t20]
  simp

/-- Witness for `event_requires_present_inputs` on `dataFlat`. -/
theorem event_requires_present_inputs_witness :
    (resolvePrice dataFlat).isSome
    ∧ (fetch_ma dataFlat.history).ma10.isSome
    ∧ (fetch_ma dataFlat.history).ma20.isSome
    ∧ (("touch20" = "crossup20" ∨ "touch20" = "crossdown20") →
        (fetch_ma dataFlat.history).prev_close.isSome ∧
          (fetch_ma dataFlat.history).prev_ma20.isSome)
    ∧ ("touch20" = "touch20" ∨ "touch20" = "crossup20" ∨ "touch20" = "crossdown20" ∨
        "touch20" = "touch10") :=
  event_requires_present_inputs (fun _ => true) "2025-01-01" "2330" dataFlat "touch20"
    (dataFlat_event (fun _ => true) "2025-01-01" "2330")

/-- C5 counterexample: two runs over the identical watchlist, quote and
history data, differing only in the state of the external Redis
deduplication store (empty vs. already holding today's key for this
signal): the first run emits one alert line, the second none — alert
emission does depend on cross-run external state. -/
theorem alerts_depend_on_store_cex :
    (runLoop (fun _ => true) "09:00" "2025-01-01" ["2330"]
        (fun _ => dataFlat)).2.length = 1
    ∧ (runLoop (fun k => !(k == alertKey "2025-01-01" "2330" "touch20")) "09:00" "2025-01-01"
        ["2330"] (fun _ => dataFlat)).2.length = 0 := by
  constructor
  · show ([] ++ (processTicker (fun _ => true) "2025-01-01" "2330" dataFlat).alertsAppended).length = 1
    rw [List.nil_append,
      (processTicker_eq (fun _ => true) "2025-01-01" "2330" dataFlat 100 "TWSE 即時" 100 100
        dataFlat_price dataFlat_ma10 dataFlat_ma20).2]
    rw [show classify 100 100 100 (fetch_ma dataFlat.history).prev_close
        (fetch_ma dataFlat.history).prev_ma20 = some "touch20" from by
      have h := dataFlat_event (fun _ => true) "2025-01-01" "2330"
      rw [(processTicker_eq (fun _ => true) "2025-01-01" "2330" dataFlat 100 "TWSE 即時" 100 100
        dataFlat_price dataFlat_ma10 dataFlat_ma20).1] at h
      exact h]
    simp
  · show ([] ++ (processTicker (fun k => !(k == alertKey "2025-01-01" "2330" "touch20"))
        "2025-01-01" "2330" dataFlat).alertsAppended).length = 0
    rw [List.nil_append,
      (processTicker_eq (fun k => !(k == alertKey "2025-01-01" "2330" "touch20"))
        "2025-01-01" "2330" dataFlat 100 "TWSE 即時" 100 100
        dataFlat_price dataFlat_ma10 dataFlat_ma20).2]
    rw [show classify 100 100 100 (fetch_ma dataFlat.history).prev_close
        (fetch_ma dataFlat.history).prev_ma20 = some "touch20" from by
      have h := dataFlat_event (fun _ => true) "2025-01-01" "2330"
      rw [(processTicker_eq (fun _ => true) "2025-01-01" "2330" dataFlat 100 "TWSE 即時" 100 100
        dataFlat_price dataFlat_ma10 dataFlat_ma20).1] at h
      exact h]
    simp

/-- C5 (amended): alert emission is gated per event by the external
deduplication store: the alert line for a derived event is appended iff
`dedup_check_and_set` approves the key `maalert:{date}:{code}:{event}`
(always approved when Redis is unconfigured or erroring); with no event
no alert is appended.  Summary lines are never deduplicated. -/
theorem alert_emission_gated_by_store (dedup : String → Bool) (today code : String)
    (d : TickerData) :
    (processTicker dedup today code d).alertsAppended.length =
      (match (processTicker dedup today code d).event with
        | some e => if dedup (alertKey today code e) then 1 else 0
        | Option.none => 0) := by
  rcases hp : resolvePrice d with _ | pt
  · unfold processTicker
    rw [hp]
    exact rfl
  · obtain ⟨p, tag⟩ := pt
    rcases h10 : (fetch_ma d.history).ma10 with _ | m10
    · unfold processTicker
      rw [hp, h10]
      exact rfl
    · rcases h20 : (fetch_ma d.history).ma20 with _ | m20
      · unfold processTicker
        rw [hp, h10, h20]
        exact rfl
      · have hep := processTicker_eq dedup today code d p tag m10 m20 hp h10 h20
        rw [hep.1, hep.2]
        rcases classify p m10 m20 (fetch_ma d.history).prev_close
            (fetch_ma d.history).prev_ma20 with _ | e
        · rfl
        · by_cases hd : dedup (alertKey today code e)
          · simp [hd]
          · simp [hd]

/-- The denominators evaluated for one ticker, in execution order: the
previous close (change-percentage, when present), then MA20 (the touch
test always runs), then MA10 when the classification chain reaches the
MA10 touch test. -/
def divisorsUsed (price ma10 ma20 : ℚ) (yclose pc pm : Option ℚ) : List ℚ :=
  (match yclose with
    | some y => [y]
    | Option.none => []) ++
  [ma20] ++
  (if touchCond price ma20 then []
   else if obLT pc pm && decide (ma20 < price) then []
   else if obLT pm pc && decide (price < ma20) then []
   else [ma10])

/-- C10: with the previous close and both averages present, finite AND
nonzero, no division in the change-percentage or touch computations has a
zero denominator; and the presence/finiteness guard alone does not
exclude zero — `to_float` maps the float `0.0` to a present value, so the
nonzero precondition is genuinely required. -/
theorem division_guards (price ma10 ma20 : ℚ) (yclose pc pm : Option ℚ)
    (hy : ∀ y, yclose = some y → y ≠ 0) (h10 : ma10 ≠ 0) (h20 : ma20 ≠ 0) :
    (∀ q ∈ divisorsUsed price ma10 ma20 yclose pc pm, q ≠ 0)
    ∧ to_float (PyVal.num 0) = some 0 := by
  refine ⟨?_, rfl⟩
  intro q hq
  rcases yclose with _ | y
  · unfold divisorsUsed at hq
    split_ifs at hq <;>
      simp only [List.nil_append, List.append_nil, List.mem_append, List.mem_singleton,
        List.mem_cons, List.not_mem_nil, or_false, false_or] at hq
    · subst hq; exact h20
    · subst hq; exact h20
    · subst hq; exact h20
    · rcases hq with rfl | rfl
      · exact h20
      · exact h10
  · have hy2 := hy y rfl
    unfold divisorsUsed at hq
    split_ifs at hq <;>
      simp only [List.cons_append, List.nil_append, List.append_nil, List.mem_append,
        List.mem_singleton, List.mem_cons, List.not_mem_nil, or_false, false_or] at hq
    · rcases hq with rfl | rfl
      · exact hy2
      · exact h20
    · rcases hq with rfl | rfl
      · exact hy2
      · exact h20
    · rcases hq with rfl | rfl
      · exact hy2
      · exact h20
    · rcases hq with rfl | rfl | rfl
      · exact hy2
      · exact h20
      · exact h10

/-- Witness for `division_guards` at concrete nonzero inputs. -/
theorem division_guards_witness :
    (∀ q ∈ divisorsUsed 100 99 101 (some 95) (some 90) (some 98), q ≠ 0)
    ∧ to_float (PyVal.num 0) = some 0 :=
  division_guards 100 99 101 (some 95) (some 90) (some 98)
    (fun y hy => by injection hy with h; subst h; norm_num)
    (by norm_num) (by norm_num)

/-! ### Report assembly -/

lemma runLoop_acc (dedup : String → Bool) (today : String) (codes : List String)
    (data : String → TickerData) (acc : List String × List String) :
    codes.foldl
      (fun a code =>
        let o := processTicker dedup today code (data code)
        (a.1 ++ o.linesAppended, a.2 ++ o.alertsAppended)) acc
    = (acc.1 ++ (codes.map fun c => (processTicker dedup today c (data c)).linesAppended).flatten,
       acc.2 ++ (codes.map fun c =>
         (processTicker dedup today c (data c)).alertsAppended).flatten) := by
  induction codes generalizing acc with
  | nil => simp
  | cons c cs ih =>
    simp only [List.foldl_cons, List.map_cons, List.flatten_cons]
    rw [ih]
    simp [List.append_assoc]

lemma runLoop_fst (dedup : String → Bool) (now_str today : String) (codes : List String)
    (data : String → TickerData) :
    (runLoop dedup now_str today codes data).1 =
      ("📊 台股均線監控（" ++ now_str ++ "）") ::
        (codes.map fun c => (processTicker dedup today c (data c)).linesAppended).flatten := by
  unfold runLoop
  rw [runLoop_acc]
  simp

lemma runLoop_snd (dedup : String → Bool) (now_str today : String) (codes : List String)
    (data : String → TickerData) :
    (runLoop dedup now_str today codes data).2 =
      (codes.map fun c => (processTicker dedup today c (data c)).alertsAppended).flatten := by
  unfold runLoop
  rw [runLoop_acc]
  simp

/-- The single summary line a ticker appends (every branch of the loop
body appends exactly one). -/
def lineOf (dedup : String → Bool) (today code : String) (d : TickerData) : String :=
  ((processTicker dedup today code d).linesAppended).headI

lemma processTicker_one_line (dedup : String → Bool) (today code : String) (d : TickerData) :
    (processTicker dedup today code d).linesAppended = [lineOf dedup today code d] := by
  unfold lineOf processTicker
  split
  · rfl
  · split
    · rfl
    · rfl

lemma flatten_singletons {α β : Type} (l : List α) (f : α → β) :
    (l.map fun a => [f a]).flatten = l.map f := by
  induction l with
  | nil => rfl
  | cons x xs ih => simp [ih]

lemma runLoop_lines_eq (dedup : String → Bool) (now_str today : String)
    (codes : List String) (data : String → TickerData) :
    (runLoop dedup now_str today codes data).1 =
      ("📊 台股均線監控（" ++ now_str ++ "）") ::
        codes.map (fun c => lineOf dedup today c (data c)) := by
  rw [runLoop_fst]
  rw [show (codes.map fun c => (processTicker dedup today c (data c)).linesAppended)
      = codes.map fun c => [lineOf dedup today c (data c)] from
    List.map_congr_left (fun c _ => processTicker_one_line dedup today c (data c))]
  rw [flatten_singletons]

/-- C7: the report never drops a ticker — the loop emits the header plus
exactly one line per ticker (whatever mix of success and failure each
ticker's data shows), in watchlist order: line i+1 is ticker i's line. -/
theorem one_line_per_ticker (dedup : String → Bool) (now_str today : String)
    (codes : List String) (data : String → TickerData) :
    (runLoop dedup now_str today codes data).1.length = codes.length + 1
    ∧ (∀ (c : String) (d : TickerData),
        (processTicker dedup today c d).linesAppended.length = 1)
    ∧ (∀ (i : Nat) (x : String), codes[i]? = some x →
        (runLoop dedup now_str today codes data).1[i + 1]? =
          some (lineOf dedup today x (data x))) := by
  refine ⟨?_, fun c d => ?_, fun i x hx => ?_⟩
  · rw [runLoop_lines_eq]
    simp
  · rw [processTicker_one_line]
    rfl
  · rw [runLoop_lines_eq, List.getElem?_cons_succ, List.getElem?_map, hx]
    rfl

/-- Witness for `one_line_per_ticker` on a two-ticker watchlist. -/
theorem one_line_per_ticker_witness :
    (runLoop (fun _ => true) "09:00" "2025-01-01" ["2330", "3017"]
        (fun _ => dataFlat)).1[2]? =
      some (lineOf (fun _ => true) "2025-01-01" "3017" dataFlat) :=
  (one_line_per_ticker (fun _ => true) "09:00" "2025-01-01" ["2330", "3017"]
    (fun _ => dataFlat)).2.2 1 "3017" rfl

/-- Ticker data as seen after a complete per-ticker retrieval failure: no
quote entry, no fallback price, empty history. -/
def failData : TickerData := ⟨Option.none, Option.none, []⟩

/-- C6: per-ticker failures are isolated — replacing one ticker's data by
failure data leaves the report the same length, leaves every other
ticker's line untouched, and gives the failing ticker the explicit
"暫無成交價" (no trade price) line, with no alert; nothing is raised, the
other tickers' lines are still produced. -/
theorem ticker_failure_isolated (dedup : String → Bool) (now_str today : String)
    (codes : List String) (data : String → TickerData) (c : String) :
    ((runLoop dedup now_str today codes
        (fun x => if x = c then failData else data x)).1.length =
      (runLoop dedup now_str today codes data).1.length)
    ∧ (∀ (i : Nat) (x : String), codes[i]? = some x → x ≠ c →
        (runLoop dedup now_str today codes
            (fun x => if x = c then failData else data x)).1[i + 1]? =
          (runLoop dedup now_str today codes data).1[i + 1]?)
    ∧ (processTicker dedup today c failData).linesAppended =
        ["⚠️ " ++ c ++ "（" ++ c ++ "）暫無成交價"]
    ∧ (processTicker dedup today c failData).alertsAppended = [] := by
  refine ⟨?_, fun i x hx hne => ?_, rfl, rfl⟩
  · rw [runLoop_lines_eq, runLoop_lines_eq]
    simp
  · rw [runLoop_lines_eq, runLoop_lines_eq, List.getElem?_cons_succ,
      List.getElem?_cons_succ, List.getElem?_map, List.getElem?_map, hx]
    simp [hne]

/-- Witness for `ticker_failure_isolated`: failing "2330" leaves
"3017"'s line unchanged. -/
theorem ticker_failure_isolated_witness :
    (runLoop (fun _ => true) "09:00" "2025-01-01" ["2330", "3017"]
        (fun x => if x = "2330" then failData else dataFlat)).1[2]? =
      (runLoop (fun _ => true) "09:00" "2025-01-01" ["2330", "3017"]
        (fun _ => dataFlat)).1[2]? :=
  (ticker_failure_isolated (fun _ => true) "09:00" "2025-01-01" ["2330", "3017"]
    (fun _ => dataFlat) "2330").2.1 1 "3017" rfl (by simp)

/-- A 500-character line. -/
def longLine : String := String.join (List.replicate 50 "0123456789")

set_option maxRecDepth 100000 in
/-- C8 counterexample: given per-ticker lines whose total length exceeds
900 characters, the output stage still produces exactly ONE summary
message — longer than 900 characters — instead of the claimed ≥2
capped chunks: the code has no chunking and no length cap at all. -/
theorem no_chunking_cex :
    900 < (String.intercalate "\n"
        ["📊 台股均線監控（09:00）", longLine, longLine]).length
    ∧ (sendMessages ["📊 台股均線監控（09:00）", longLine, longLine] []).length = 1
    ∧ (sendMessages ["📊 台股均線監控（09:00）", longLine, longLine] [])[0]? =
        some (String.intercalate "\n" ["📊 台股均線監控（09:00）", longLine, longLine]) := by
  refine ⟨?_, rfl, rfl⟩
  decide

/-- C8 (amended): the output stage never chunks — it always emits exactly
one summary message containing the header and every line (plus at most
one alert message when alerts exist), regardless of accumulated length;
no 900-character cap exists in the code. -/
theorem single_summary_message (lines alerts : List String) :
    (sendMessages lines alerts).length ≤ 2
    ∧ (sendMessages lines alerts)[0]? = some (String.intercalate "\n" lines)
    ∧ (alerts = [] → (sendMessages lines alerts).length = 1)
    ∧ (alerts ≠ [] → (sendMessages lines alerts)[1]? =
        some ("📣 均線警報\n" ++ String.intercalate "\n" alerts)) := by
  unfold sendMessages
  rcases alerts with _ | ⟨a, as⟩
  · simp
  · simp

/-- Witness for `single_summary_message` with and without alerts. -/
theorem single_summary_message_witness :
    (sendMessages ["h", "l1"] []).length = 1
    ∧ (sendMessages ["h", "l1"] ["a1"])[1]? =
        some ("📣 均線警報\n" ++ String.intercalate "\n" ["a1"]) :=
  ⟨(single_summary_message ["h", "l1"] []).2.2.1 rfl,
   (single_summary_message ["h", "l1"] ["a1"]).2.2.2 (by simp)⟩

end StockBot
